import Mathlib

/-!
Verification development for the RightTyper repository excerpt:
shallow embeddings of `righttyper/get_import_details.py` and
`righttyper/righttyper_tool.py`, together with theorems settling the
specification claims about them.
-/

/-!
## Part 1: model of `get_import_details.py`

Python runtime values are modelled by `PyObj`: identity (`is`) is modelled by
equality of the `id` field (Python object ids are unique among live objects),
`isModule` models `isinstance(v, ModuleType)`, and the optional `name?` /
`module?` fields model the presence or absence of the `__name__` / `__module__`
attributes (`hasattr`), with `typeName` / `typeModule` the corresponding
attributes of the value's type, used as fallbacks by the source.
-/

structure PyObj where
  id : Nat
  isModule : Bool
  name? : Option String
  module? : Option String
  typeName : String
  typeModule : String
deriving DecidableEq

/--
Model of a Python code object, restricted to the fields the source reads.
Per the CPython data model, `co_varnames` begins with the positional
parameters (`co_argcount` of them, including positional-only parameters),
immediately followed by the keyword-only parameters (`co_kwonlyargcount` of
them); remaining entries are plain local variables.
-/
structure CodeObj where
  varnames : List String
  argcount : Nat
  kwonlyargcount : Nat
deriving DecidableEq

/-- A call frame: its code object and its global and local scope bindings
(read-only snapshots, modelled as association lists). -/
structure Frame where
  code : CodeObj
  f_globals : List (String × PyObj)
  f_locals : List (String × PyObj)
deriving DecidableEq

/-- The formal parameters of a code object per the CPython layout: the first
`co_argcount + co_kwonlyargcount` entries of `co_varnames`. -/
def formal_parameters (c : CodeObj) : List String :=
  c.varnames.take (c.argcount + c.kwonlyargcount)

/-- The exclusion set the source computes at
`get_import_details.py:64-66`: `frame.f_code.co_varnames[: frame.f_code.co_argcount]`,
i.e. the positional parameters only. -/
def local_scope_exclusions (c : CodeObj) : List String :=
  c.varnames.take c.argcount

/-- The `ImportDetails` record (returned by the source as a 4-tuple).  The
source builds the alias collections as Python sets guarded by membership
checks; we model them as duplicate-free lists in insertion order. -/
structure ImportDetails where
  objectName : String
  objectAliases : List String
  moduleName : String
  moduleAliases : List String
deriving DecidableEq

/-- Model of `sys.modules`: an association of module names to module objects;
`sys.modules.get` is `List.lookup`. -/
def Registry := List (String × PyObj)

def Registry.get (r : Registry) (name : String) : Option PyObj :=
  List.lookup name r

/--
One iteration of the innermost loop of `get_import_details`
(`get_import_details.py:74-94`), processing a single `(alias_name, imported_obj)`
binding.  The running state is the pair `(obj_aliases, module_aliases)`.
The `elif` of the source means the object-alias test runs only when the
module test (`isinstance(imported_obj, ModuleType) and imported_obj is
module_obj`) is false.
-/
def processBinding (obj : PyObj) (obj_name module_name : String)
    (module_obj : Option PyObj) (exclusions : List String)
    (st : List String × List String) (b : String × PyObj) :
    List String × List String :=
  let alias_name := b.1
  let imported_obj := b.2
  if imported_obj.isModule = true ∧
      Option.map PyObj.id module_obj = some imported_obj.id then
    if alias_name ≠ module_name ∧ alias_name ∉ st.2 ∧ alias_name ∉ exclusions
    then (st.1, st.2 ++ [alias_name])
    else st
  else
    if imported_obj.id = obj.id ∧ alias_name ≠ obj_name ∧
        alias_name ∉ st.1 ∧ alias_name ∉ exclusions
    then (st.1 ++ [alias_name], st.2)
    else st

/-- Processing of one scope dictionary (`for alias_name, imported_obj in
scope.items()`), `get_import_details.py:74-94`. -/
def processScope (obj : PyObj) (obj_name module_name : String)
    (module_obj : Option PyObj) (exclusions : List String)
    (st : List String × List String) (scope : List (String × PyObj)) :
    List String × List String :=
  scope.foldl (processBinding obj obj_name module_name module_obj exclusions) st

/--
Processing of one frame (`get_import_details.py:61-94`): compute the
exclusions from the code object, then fold the two scopes, globals first then
locals.  The source re-reads `sys.modules.get(module_name)` before each scope;
the value is the same both times, so it is computed once here.
-/
def processFrame (obj : PyObj) (obj_name module_name : String)
    (sys_modules : Registry) (st : List String × List String) (frame : Frame) :
    List String × List String :=
  let exclusions := local_scope_exclusions frame.code
  let module_obj := sys_modules.get module_name
  [frame.f_globals, frame.f_locals].foldl
    (processScope obj obj_name module_name module_obj exclusions) st

/--
Model of `get_import_details` (`get_import_details.py:14-104`).  The call
chain (the source's `frame.f_back` walk starting from the immediate caller)
and `sys.modules` are passed explicitly, as the specification directs for
hosts without implicit frame introspection.
-/
def get_import_details (obj : PyObj) (frames : List Frame)
    (sys_modules : Registry) : ImportDetails :=
  let obj_name := obj.name?.getD obj.typeName
  let module_name := obj.module?.getD obj.typeModule
  if module_name = "builtins" then
    { objectName := obj_name, objectAliases := [],
      moduleName := "builtins", moduleAliases := [] }
  else
    let r := frames.foldl (processFrame obj obj_name module_name sys_modules)
      ([], [])
    { objectName := obj_name, objectAliases := r.1,
      moduleName := module_name, moduleAliases := r.2 }

/-!
## Part 2: model of the import statement synthesizer

`print_possible_imports` writes lines to stdout; we model its output as the
list of lines printed, in order.  `generate_import_nodes` builds `libcst`
nodes; `libcst` raises `CSTValidationError` from `cst.Name(s)` when `s` is
not a valid Python identifier, which is the only validation failure reachable
from the node shapes this source constructs.  Construction is therefore
modelled in the `Except Unit` monad, with `Except.error ()` standing for an
uncaught `CSTValidationError`.
-/

/-- Model of `print_possible_imports` (`get_import_details.py:147-177`):
the list of printed lines, in print order.  The alias sets iterate in the
(unspecified) order of the modelling lists. -/
def print_possible_imports (d : ImportDetails) : List String :=
  [("from " ++ d.moduleName ++ " import " ++ d.objectName)]
    ++ d.objectAliases.map
      (fun al =>
        "from " ++ d.moduleName ++ " import " ++ d.objectName ++ " as " ++ al)
    ++ [("import " ++ d.moduleName)]
    ++ d.moduleAliases.map (fun al => "import " ++ d.moduleName ++ " as " ++ al)

/-- Character class of Python identifier continuation characters
(ASCII fragment of `str.isidentifier`). -/
def isIdentContinue (c : Char) : Bool :=
  c.isAlphanum || c = '_'

/-- ASCII model of `str.isidentifier`, the check `cst.Name` performs:
nonempty, a letter or underscore first, then letters, digits or underscores. -/
def isValidIdentifier (s : String) : Bool :=
  match s.data with
  | [] => false
  | c :: cs => (c.isAlpha || c = '_') && cs.all isIdentContinue

/-- Model of constructing `cst.Name(s)`: returns the name, or raises
`CSTValidationError` when `s` is not a valid identifier. -/
def mkName (s : String) : Except Unit String :=
  if isValidIdentifier s then Except.ok s else Except.error ()

/-- A dotted name as built by `create_dotted_name`: a base `cst.Name` with a
left-associative chain of `cst.Attribute` nodes. -/
inductive DName where
  | name (s : String)
  | attr (base : DName) (a : String)
deriving DecidableEq

/-- Structural model of Python's `name.split(".")`, character by character:
splitting an empty string yields `[""]`, and every dot separates (possibly
empty) parts. -/
def splitDotAux : List Char → List Char → List String
  | [], acc => [String.mk acc.reverse]
  | c :: cs, acc =>
    if c = '.' then String.mk acc.reverse :: splitDotAux cs []
    else splitDotAux cs (c :: acc)

/-- Python's `name.split(".")`. -/
def splitDot (s : String) : List String :=
  splitDotAux s.data []

/-- Model of the helper `create_dotted_name` (`get_import_details.py:212-221`):
split on the dots and fold the parts into nested attribute accesses, each part
constructed with `cst.Name` (and hence validated).  `splitDot` never returns
an empty list, so the first case is unreachable. -/
def create_dotted_name (nm : String) : Except Unit DName :=
  match splitDot nm with
  | [] => Except.error ()
  | p :: ps => do
    let base ← mkName p
    ps.foldlM (fun acc part => do
      let n ← mkName part
      pure (DName.attr acc n)) (DName.name base)

/-- The import statement nodes produced by `generate_import_nodes`:
`from module import name [as alias]`, `import module [as alias]`, and the
blank-line separator node. -/
inductive CNode where
  | importFrom (module : DName) (nm : String) (asname : Option String)
  | imp (module : DName) (asname : Option String)
  | emptyLine
deriving DecidableEq

/-- Model of constructing the
`cst.ImportFrom(module=create_dotted_name(module_name),
names=[cst.ImportAlias(name=cst.Name(obj_name), asname=...)])` expression, in
the source's evaluation order. -/
def mk_import_from (module_name obj_name : String) (asname : Option String) :
    Except Unit CNode := do
  let m ← create_dotted_name module_name
  let n ← mkName obj_name
  match asname with
  | none => pure (CNode.importFrom m n none)
  | some a => do
    let a2 ← mkName a
    pure (CNode.importFrom m n (some a2))

/-- The warning the source logs at `get_import_details.py:234`. -/
def objImportWarning (module_name obj_name : String) : String :=
  "Failed to add from module_name=" ++ module_name ++ " import obj_name=" ++ obj_name

/-- The warning the source logs at `get_import_details.py:251`. -/
def objAliasWarning (obj_name al : String) : String :=
  "Failed to add import obj_name=" ++ obj_name ++ " as alias=" ++ al

/-- The guarded first statement of `generate_import_nodes`
(`get_import_details.py:224-234`): the object import and its blank line, or a
warning when `CSTValidationError` was raised.  Result: `(nodes, warnings)`. -/
def objImportStep (module_name obj_name : String) : List CNode × List String :=
  match mk_import_from module_name obj_name none with
  | Except.ok nd => ([nd, CNode.emptyLine], [])
  | Except.error _ => ([], [objImportWarning module_name obj_name])

/-- One guarded iteration of the object-alias loop
(`get_import_details.py:236-251`). -/
def objAliasStep (module_name obj_name : String)
    (acc : List CNode × List String) (al : String) :
    List CNode × List String :=
  match mk_import_from module_name obj_name (some al) with
  | Except.ok nd => (acc.1 ++ [nd, CNode.emptyLine], acc.2)
  | Except.error _ => (acc.1, acc.2 ++ [objAliasWarning obj_name al])

/-- One iteration of the module-alias loop (`get_import_details.py:260-271`).
This loop has no `try`/`except`: a `CSTValidationError` propagates. -/
def moduleAliasStep (module_name : String) (nodes : List CNode) (al : String) :
    Except Unit (List CNode) := do
  let m ← create_dotted_name module_name
  let a ← mkName al
  pure (nodes ++ [CNode.imp m (some a), CNode.emptyLine])

/--
Model of `generate_import_nodes` (`get_import_details.py:185-273`).
The object import and the object-alias imports are wrapped in
`try ... except cst.CSTValidationError` (skip, log a warning); the plain
module import (`get_import_details.py:254-258`) and the module-alias imports
are not wrapped, so a validation failure there propagates out of the
function, modelled by `Except.error`.
-/
def generate_import_nodes (d : ImportDetails) :
    Except Unit (List CNode × List String) := do
  let acc0 := objImportStep d.moduleName d.objectName
  let acc := d.objectAliases.foldl (objAliasStep d.moduleName d.objectName) acc0
  let m ← create_dotted_name d.moduleName
  let nodes1 := acc.1 ++ [CNode.imp m none, CNode.emptyLine]
  let nodes2 ← d.moduleAliases.foldlM (moduleAliasStep d.moduleName) nodes1
  pure (nodes2, acc.2)

/-!
## Part 3: model of `righttyper_tool.py`

The host state touched by the tool module — the `sys.monitoring` facility and
the `signal` timer facility — is collected in `MonitoringState`.  Callbacks
and signal handlers are opaque callables; we model each by a `Nat` label.
Timer durations are Python floats used only as opaque stored values (no
arithmetic is performed on them), modelled by `Rat`.

Per the CPython documentation: `sys.monitoring.set_events` raises `ValueError`
when the tool id is not in use, which is the failure the source guards
against; `sys.monitoring.use_tool_id` raises when the id is already in use
(the source catches every exception there and retries).

`signal.setitimer(which, seconds, interval=0.0)` arms the timer to fire once
after `seconds` and then repeatedly every `interval` seconds; when `interval`
is zero the timer fires only once.  The source calls it with the `interval`
argument omitted, so the default `0.0` applies.
-/

/-- The event-set bit constants of `sys.monitoring.events` used by the source
(CPython numbers the events PY_START=0, PY_RESUME=1, PY_RETURN=2, PY_YIELD=3,
CALL=4 and exposes the bit `1 <<< number`). -/
def PY_START : Nat := 1

def PY_RETURN : Nat := 4

def PY_YIELD : Nat := 8

def CALL : Nat := 16

def NO_EVENTS : Nat := 0

/-- `_EVENTS` (`righttyper_tool.py:12-17`): the frozenset of the four event
kinds, modelled as a list in declaration order (its uses — bitwise union and
per-element callback clearing — are order-independent). -/
def EVENTS_SET : List Nat := [PY_START, PY_RETURN, PY_YIELD, CALL]

/-- A `SIGALRM` disposition: the two standard dispositions or an installed
Python handler (an opaque callable, labelled by a `Nat`). -/
inductive SigHandler where
  | SIG_DFL
  | SIG_IGN
  | installed (h : Nat)
deriving DecidableEq

/-- The host state the tool module reads and writes: the `sys.monitoring`
registry (which tool ids are in use, each id's enabled event set and
registered callbacks) and the `signal` facility for `SIGALRM` /
`ITIMER_REAL` (handler, initial delay, repeat interval).  `toolId` is the
process-wide `TOOL_ID` global. -/
structure MonitoringState where
  toolIdInUse : Nat → Bool
  events : Nat → Nat
  callbacks : Nat → Nat → Option Nat
  sigalrmHandler : SigHandler
  itimerSeconds : Rat
  itimerInterval : Rat
  toolId : Nat

/-- Python exceptions distinguished by the source's handlers. -/
inductive PyErr where
  | valueError
deriving DecidableEq

/-- `sys.monitoring.set_events(tool_id, event_set)`: replaces the id's
enabled event set, raising `ValueError` when the id is not in use. -/
def set_events (st : MonitoringState) (id evs : Nat) :
    Except PyErr MonitoringState :=
  if st.toolIdInUse id then
    Except.ok { st with events := fun i => if i = id then evs else st.events i }
  else
    Except.error PyErr.valueError

/-- `sys.monitoring.get_events(tool_id)`: the id's enabled event set,
`ValueError` when the id is not in use. -/
def get_events (st : MonitoringState) (id : Nat) : Except PyErr Nat :=
  if st.toolIdInUse id then Except.ok (st.events id)
  else Except.error PyErr.valueError

/-- `sys.monitoring.register_callback(tool_id, event, cb)`: records the
callback (or clears it, for `none`). -/
def register_callback (st : MonitoringState) (id ev : Nat) (cb : Option Nat) :
    MonitoringState :=
  { st with
    callbacks := fun i e => if i = id ∧ e = ev then cb else st.callbacks i e }

/--
Model of `register_monitoring_callbacks` (`righttyper_tool.py:20-52`): fold
the event set into a bitmask, enable it for `TOOL_ID` (unguarded, so a
`ValueError` would propagate), then register the four callbacks in source
order.  The `PY_START` callback is the adapter lambda closing over
`ignore_annotations` and `enter_function`; it is modelled by the
`enter_function` label.
-/
def register_monitoring_callbacks (enter_function call_handler exit_function
    yield_function : Nat) (_ignore_annotations : Bool) (st : MonitoringState) :
    Except PyErr MonitoringState := do
  let event_set := EVENTS_SET.foldl (fun a e => a ||| e) 0
  let st1 ← set_events st st.toolId event_set
  let st2 := register_callback st1 st1.toolId PY_START (some enter_function)
  let st3 := register_callback st2 st2.toolId CALL (some call_handler)
  let st4 := register_callback st3 st3.toolId PY_RETURN (some exit_function)
  let st5 := register_callback st4 st4.toolId PY_YIELD (some yield_function)
  pure st5

/-- The fixed id range `range(3, 5)` of `righttyper_tool.py:59`. -/
def RESERVED_RANGE : List Nat := [3, 4]

/-- One iteration of the reserved-slot loop of `reset_monitoring`
(`righttyper_tool.py:59-66`): `try: sys.monitoring.set_events(id, NO_EVENTS)
except ValueError: pass`. -/
def try_clear_events (s : MonitoringState) (id : Nat) :
    Except PyErr MonitoringState :=
  match set_events s id NO_EVENTS with
  | Except.ok s2 => Except.ok s2
  | Except.error PyErr.valueError => Except.ok s

/--
Model of `reset_monitoring` (`righttyper_tool.py:55-68`): clear the four
callbacks of `TOOL_ID`; for each id in `range(3, 5)` try to set its events to
`NO_EVENTS`, swallowing `ValueError` (`try ... except ValueError: pass`);
then `signal.signal(SIGALRM, SIG_IGN)` and `signal.setitimer(ITIMER_REAL, 0)`
(both arguments of the latter zero: delay 0 disarms, repeat interval 0).
-/
def reset_monitoring (st : MonitoringState) : Except PyErr MonitoringState := do
  let st1 := EVENTS_SET.foldl (fun s e => register_callback s s.toolId e none) st
  let st2 ← RESERVED_RANGE.foldlM try_clear_events st1
  pure { st2 with sigalrmHandler := SigHandler.SIG_IGN,
                  itimerSeconds := 0, itimerInterval := 0 }

/--
Model of `setup_timer` (`righttyper_tool.py:71-78`):
`signal.signal(SIGALRM, handle_clear_seen_funcs)` then
`signal.setitimer(ITIMER_REAL, get_sampling_interval())`.  The sampling
interval is supplied by the external configuration and passed explicitly
here.  `setitimer`'s third argument (the repeat interval) is omitted by the
source and defaults to `0.0`.
-/
def setup_timer (handle_clear_seen_funcs : Nat) (sampling_interval : Rat)
    (st : MonitoringState) : MonitoringState :=
  { st with sigalrmHandler := SigHandler.installed handle_clear_seen_funcs,
            itimerSeconds := sampling_interval,
            itimerInterval := 0 }

/--
Model of the probing loop of `setup_tool_id` (`righttyper_tool.py:81-88`):
`free id` tells whether `sys.monitoring.use_tool_id(id, TOOL_NAME)` succeeds
for candidate `id` (the source catches every exception and increments).  The
unbounded `while True` loop is modelled with explicit fuel: `none` means the
loop was still running after `fuel` probes.
-/
def setup_tool_id_loop (free : Nat → Bool) : Nat → Nat → Option Nat
  | 0, _ => none
  | fuel + 1, id => if free id then some id else setup_tool_id_loop free fuel (id + 1)

/-!
## Part 4: concrete instances used by witnesses and counterexamples
-/

/-- A target object named `target` defined in module `m` (not a module,
carries its own `__name__` and `__module__`). -/
def obj0 : PyObj :=
  { id := 1, isModule := false, name? := some ("target"),
    module? := some ("m"), typeName := "T", typeModule := "tm" }

/-- The module object currently registered in `sys.modules` under `m`. -/
def mod0 : PyObj :=
  { id := 2, isModule := true, name? := some ("m"), module? := none,
    typeName := "module", typeModule := "builtins" }

/-- A `sys.modules` with exactly the module `m` loaded. -/
def reg0 : Registry := [("m", mod0)]

/-- A frame of a function `def f(*, kw): ...` called as `f(kw=target)`:
`kw` is a keyword-only formal parameter (`co_argcount = 0`,
`co_kwonlyargcount = 1`) bound to the target object in the frame locals. -/
def frame0 : Frame :=
  { code := { varnames := ["kw"], argcount := 0, kwonlyargcount := 1 },
    f_globals := [], f_locals := [("kw", obj0)] }

/-- A frame of a function `def g(p): ...` called as `g(target)`: `p` is a
positional formal parameter bound to the target object. -/
def frame1 : Frame :=
  { code := { varnames := ["p"], argcount := 1, kwonlyargcount := 0 },
    f_globals := [], f_locals := [("p", obj0)] }

/-- The `ImportDetails` of spec property 5: object `Console` from module
`pkg.sub`, two object aliases, no module aliases (the object-alias iteration
order is a parameter, since set order is unspecified). -/
def consoleDetails (objectAliases : List String) : ImportDetails :=
  { objectName := "Console", objectAliases := objectAliases,
    moduleName := "pkg.sub", moduleAliases := [] }

/-- Details whose only structurally invalid entry is the single module alias
`bad alias` (every other component is a valid identifier / dotted path). -/
def badModuleAliasDetails : ImportDetails :=
  { objectName := "Console", objectAliases := [],
    moduleName := "pkg", moduleAliases := ["bad alias"] }

/-- Details with an invalid object name, one valid object alias and one valid
module alias, used to witness the amended generation claim. -/
def mixedDetails : ImportDetails :=
  { objectName := "bad name", objectAliases := ["Good"],
    moduleName := "pkg", moduleAliases := ["ps"] }

/-- A monitoring state with nothing registered: no tool ids in use, no events
enabled, no callbacks, default `SIGALRM` disposition, timer disarmed,
`TOOL_ID = 5`. -/
def initState : MonitoringState :=
  { toolIdInUse := fun _ => false
    events := fun _ => 0
    callbacks := fun _ _ => none
    sigalrmHandler := SigHandler.SIG_DFL
    itimerSeconds := 0
    itimerInterval := 0
    toolId := 5 }

/-- A state whose session identity 5 is registered with the host facility. -/
def stInUse : MonitoringState :=
  { initState with toolIdInUse := fun i => i == 5 }

/-- A state of a session that acquired `TOOL_ID = 3` (id 3 in use, all four
events enabled for it) — id 3 is acquirable by `setup_tool_id`, and is the
preferred id of the external configuration in the wider system. -/
def stOwn3 : MonitoringState :=
  { initState with
    toolId := 3
    toolIdInUse := fun i => i == 3
    events := fun _ => PY_START ||| PY_RETURN ||| PY_YIELD ||| CALL }

/-- The enabled event set of tool id `i` after `reset_monitoring` runs on
`st` (`none` if the reset itself raised). -/
def eventsAfterReset (st : MonitoringState) (i : Nat) : Option Nat :=
  match reset_monitoring st with
  | Except.ok s => some (s.events i)
  | Except.error _ => none

/-- The total effect of one guarded `set_events(id, NO_EVENTS)` attempt of the
reset loop: clear the events if the id is in use, otherwise leave the state
unchanged (the `ValueError` was swallowed). -/
def clear_one (s : MonitoringState) (id : Nat) : MonitoringState :=
  if s.toolIdInUse id then
    { s with events := fun i => if i = id then NO_EVENTS else s.events i }
  else s

/-- The state after the callback-clearing loop of `reset_monitoring`. -/
def clear_callbacks_state (st : MonitoringState) : MonitoringState :=
  EVENTS_SET.foldl (fun s e => register_callback s s.toolId e none) st

/-- The state `reset_monitoring` leaves behind (it never raises). -/
def reset_result (st : MonitoringState) : MonitoringState :=
  let s1 := clear_callbacks_state st
  let s2 := clear_one (clear_one s1 3) 4
  { s2 with sigalrmHandler := SigHandler.SIG_IGN,
            itimerSeconds := 0, itimerInterval := 0 }

/-!
## Part 5: helper lemmas
-/

theorem foldl_preserves {α β : Type} (P : α → Prop) (f : α → β → α)
    (hf : ∀ a b, P a → P (f a b)) :
    ∀ (l : List β) (a : α), P a → P (l.foldl f a) := by
  intro l
  induction l with
  | nil => intro a ha; exact ha
  | cons b t ih => intro a ha; exact ih (f a b) (hf a b ha)

theorem foldl_preserves_iff {α β : Type} (Q : α → Prop) (f : α → β → α)
    (hf : ∀ a b, Q (f a b) ↔ Q a) :
    ∀ (l : List β) (a : α), (Q (l.foldl f a) ↔ Q a) := by
  intro l
  induction l with
  | nil => intro a; exact Iff.rfl
  | cons b t ih => intro a; exact (ih (f a b)).trans (hf a b)

/-!
## Part 6: the claims
-/

/-- C2 counterexample: `setup_timer` with sampling interval 1 arms the timer
with repeat interval 0, not 1 — the `setitimer` call omits the repeat
interval, so the timer fires once rather than repeatedly with the sampling
period. -/
theorem setup_timer_counterexample :
    (setup_timer 7 1 initState).itimerSeconds = 1 ∧
    (setup_timer 7 1 initState).itimerInterval = 0 ∧
    (setup_timer 7 1 initState).itimerInterval ≠ 1 := by
  refine ⟨rfl, rfl, ?_⟩
  intro h
  exact absurd h (by norm_num [setup_timer, initState])

/-- C2 (amended): `setup_timer h q` installs `h` as the `SIGALRM` handler and
arms a one-shot real-time timer with initial delay the externally supplied
sampling interval `q` and repeat interval 0; it fires once, and keeps firing
only if re-armed by its caller. -/
theorem setup_timer_installs_one_shot (h : Nat) (q : Rat) (st : MonitoringState) :
    (setup_timer h q st).sigalrmHandler = SigHandler.installed h ∧
    (setup_timer h q st).itimerSeconds = q ∧
    (setup_timer h q st).itimerInterval = 0 :=
  ⟨rfl, rfl, rfl⟩

/-- C4 counterexample: on the claimed input (for either iteration order of
the alias set), `print_possible_imports` emits 4 lines, not 3. -/
theorem print_possible_imports_counterexample :
    (print_possible_imports (consoleDetails ["A", "B"])).length = 4 ∧
    (print_possible_imports (consoleDetails ["B", "A"])).length = 4 ∧
    (print_possible_imports (consoleDetails ["A", "B"])).length ≠ 3 := by
  decide

/-- C4 (amended): given object name `Console`, object aliases `{A, B}` (in
either set order), module `pkg.sub` and no module aliases,
`print_possible_imports` emits exactly 4 lines: the base object import first,
the two aliased object imports, the base module import last, and zero
module-alias (`import pkg.sub as ...`) lines. -/
theorem print_possible_imports_c4 (l : List String)
    (hl : l = ["A", "B"] ∨ l = ["B", "A"]) :
    (print_possible_imports (consoleDetails l)).length = 4 ∧
    (print_possible_imports (consoleDetails l)).head? =
      some ("from pkg.sub import Console") ∧
    ("from pkg.sub import Console as A") ∈ print_possible_imports (consoleDetails l) ∧
    ("from pkg.sub import Console as B") ∈ print_possible_imports (consoleDetails l) ∧
    (print_possible_imports (consoleDetails l)).getLast? =
      some ("import pkg.sub") ∧
    (print_possible_imports (consoleDetails l)).countP
      (fun s => ("import pkg.sub as ").data.isPrefixOf s.data) = 0 := by
  rcases hl with rfl | rfl <;> decide

/-- C4 witness: the amended statement at the concrete order `[A, B]`. -/
theorem print_possible_imports_c4_witness :
    (print_possible_imports (consoleDetails ["A", "B"])).length = 4 ∧
    (print_possible_imports (consoleDetails ["A", "B"])).head? =
      some ("from pkg.sub import Console") ∧
    ("from pkg.sub import Console as A") ∈ print_possible_imports (consoleDetails ["A", "B"]) ∧
    ("from pkg.sub import Console as B") ∈ print_possible_imports (consoleDetails ["A", "B"]) ∧
    (print_possible_imports (consoleDetails ["A", "B"])).getLast? =
      some ("import pkg.sub") ∧
    (print_possible_imports (consoleDetails ["A", "B"])).countP
      (fun s => ("import pkg.sub as ").data.isPrefixOf s.data) = 0 :=
  print_possible_imports_c4 ["A", "B"] (Or.inl rfl)

/-- C9: against a registry where the `n` candidate identifiers from the
preferred `start` on are taken and `start + n` is free, the probing loop of
`setup_tool_id` terminates (any fuel beyond `n` suffices) and yields the
first free identifier at or after the preferred one. -/
theorem setup_tool_id_first_free (free : Nat → Bool) (start n fuel : Nat)
    (htaken : ∀ k, k < n → free (start + k) = false)
    (hfree : free (start + n) = true)
    (hfuel : n < fuel) :
    setup_tool_id_loop free fuel start = some (start + n) := by
  induction n generalizing start fuel with
  | zero =>
    cases fuel with
    | zero => omega
    | succ f =>
      have h0 : free start = true := by simpa using hfree
      simp [setup_tool_id_loop, h0]
  | succ n ih =>
    cases fuel with
    | zero => omega
    | succ f =>
      have h0 : free start = false := by simpa using htaken 0 (Nat.succ_pos n)
      have hrec := ih (start + 1) f
        (fun k hk => by
          have := htaken (k + 1) (by omega)
          simpa [Nat.add_assoc, Nat.add_comm 1 k] using this)
        (by simpa [Nat.add_assoc, Nat.add_comm 1 n] using hfree)
        (by omega)
      simp [setup_tool_id_loop, h0]
      simpa [Nat.add_assoc, Nat.add_comm 1 n] using hrec

/-- C9 witness: with identifiers 2, 3 and 4 taken and 5 the first free one,
probing from 2 with fuel 10 yields identifier 5. -/
theorem setup_tool_id_witness :
    setup_tool_id_loop (fun i => decide (5 ≤ i)) 10 2 = some 5 := by
  have h := setup_tool_id_first_free (fun i => decide (5 ≤ i)) 2 3 10
    (by decide) (by decide) (by decide)
  simpa using h

/-- C1 counterexample: a single malformed module alias (`bad alias`) in
otherwise fully valid details makes `generate_import_nodes` raise
(`CSTValidationError` propagates from the unguarded module-alias loop),
aborting the whole sequence. -/
theorem generate_import_nodes_counterexample :
    isValidIdentifier ("Console") = true ∧
    (create_dotted_name ("pkg")).isOk = true ∧
    isValidIdentifier ("bad alias") = false ∧
    generate_import_nodes badModuleAliasDetails = Except.error () :=
  ⟨rfl, rfl, rfl, rfl⟩

theorem processBinding_not_mem (obj : PyObj) (obj_name module_name : String)
    (mo : Option PyObj) (excl : List String)
    (st : List String × List String) (b : String × PyObj)
    (h1 : obj_name ∉ st.1) (h2 : module_name ∉ st.2) :
    obj_name ∉ (processBinding obj obj_name module_name mo excl st b).1 ∧
    module_name ∉ (processBinding obj obj_name module_name mo excl st b).2 := by
  unfold processBinding
  dsimp only
  split_ifs with hA hB hC
  · refine ⟨h1, ?_⟩
    simp only [List.mem_append, List.mem_singleton]
    rintro (h | h)
    · exact h2 h
    · exact hB.1 h.symm
  · exact ⟨h1, h2⟩
  · refine ⟨?_, h2⟩
    simp only [List.mem_append, List.mem_singleton]
    rintro (h | h)
    · exact h1 h
    · exact hC.2.1 h.symm
  · exact ⟨h1, h2⟩

/-- C7: the `ImportDetails` returned by the resolver never lists the
canonical object name among the object aliases nor the canonical module name
among the module aliases, for every input object, call chain and module
registry. -/
theorem get_import_details_canonical_not_alias (obj : PyObj)
    (frames : List Frame) (reg : Registry) :
    (get_import_details obj frames reg).objectName ∉
      (get_import_details obj frames reg).objectAliases ∧
    (get_import_details obj frames reg).moduleName ∉
      (get_import_details obj frames reg).moduleAliases := by
  unfold get_import_details
  dsimp only
  by_cases hb : obj.module?.getD obj.typeModule = "builtins"
  · simp [hb]
  · simp only [if_neg hb]
    exact foldl_preserves
      (fun st : List String × List String =>
        obj.name?.getD obj.typeName ∉ st.1 ∧
        obj.module?.getD obj.typeModule ∉ st.2)
      (processFrame obj (obj.name?.getD obj.typeName)
        (obj.module?.getD obj.typeModule) reg)
      (fun st frame hP => by
        unfold processFrame
        dsimp only
        exact foldl_preserves
          (fun s : List String × List String =>
            obj.name?.getD obj.typeName ∉ s.1 ∧
            obj.module?.getD obj.typeModule ∉ s.2)
          (processScope obj (obj.name?.getD obj.typeName)
            (obj.module?.getD obj.typeModule)
            (Registry.get reg (obj.module?.getD obj.typeModule))
            (local_scope_exclusions frame.code))
          (fun s2 scope hP2 => by
            unfold processScope
            exact foldl_preserves
              (fun s3 : List String × List String =>
                obj.name?.getD obj.typeName ∉ s3.1 ∧
                obj.module?.getD obj.typeModule ∉ s3.2)
              (processBinding obj (obj.name?.getD obj.typeName)
                (obj.module?.getD obj.typeModule)
                (Registry.get reg (obj.module?.getD obj.typeModule))
                (local_scope_exclusions frame.code))
              (fun s3 b hP3 =>
                processBinding_not_mem obj (obj.name?.getD obj.typeName)
                  (obj.module?.getD obj.typeModule)
                  (Registry.get reg (obj.module?.getD obj.typeModule))
                  (local_scope_exclusions frame.code) s3 b hP3.1 hP3.2)
              scope s2 hP2)
          [frame.f_globals, frame.f_locals] st hP)
      frames (([], []) : List String × List String) (by simp)

theorem processBinding_excluded_mem_iff (obj : PyObj)
    (obj_name module_name : String) (mo : Option PyObj) (excl : List String)
    (name : String) (hx : name ∈ excl)
    (st : List String × List String) (b : String × PyObj) :
    ((name ∈ (processBinding obj obj_name module_name mo excl st b).1 ↔
        name ∈ st.1) ∧
     (name ∈ (processBinding obj obj_name module_name mo excl st b).2 ↔
        name ∈ st.2)) := by
  unfold processBinding
  dsimp only
  split_ifs with hA hB hC
  · have hne : name ≠ b.1 := fun h => hB.2.2 (h ▸ hx)
    refine ⟨Iff.rfl, ?_⟩
    simp only [List.mem_append, List.mem_singleton]
    constructor
    · rintro (h | h)
      · exact h
      · exact absurd h hne
    · intro h
      exact Or.inl h
  · exact ⟨Iff.rfl, Iff.rfl⟩
  · have hne : name ≠ b.1 := fun h => hC.2.2.2 (h ▸ hx)
    refine ⟨?_, Iff.rfl⟩
    simp only [List.mem_append, List.mem_singleton]
    constructor
    · rintro (h | h)
      · exact h
      · exact absurd h hne
    · intro h
      exact Or.inl h
  · exact ⟨Iff.rfl, Iff.rfl⟩

/-- C5 (amended): while processing one frame, a name among the frame's
positional parameters (`co_varnames[:co_argcount]`, the exclusion set the
source computes) is never newly added to either alias collection by that
frame's bindings.  (Keyword-only parameters are not excluded — see the
counterexample.) -/
theorem processFrame_excluded_names_never_added (obj : PyObj)
    (obj_name module_name : String) (reg : Registry) (frame : Frame)
    (st : List String × List String) (name : String)
    (hname : name ∈ local_scope_exclusions frame.code) :
    ((name ∈ (processFrame obj obj_name module_name reg st frame).1 ↔
        name ∈ st.1) ∧
     (name ∈ (processFrame obj obj_name module_name reg st frame).2 ↔
        name ∈ st.2)) := by
  unfold processFrame
  dsimp only
  constructor
  · exact foldl_preserves_iff
      (fun s : List String × List String => name ∈ s.1)
      (processScope obj obj_name module_name
        (Registry.get reg module_name) (local_scope_exclusions frame.code))
      (fun a scope => by
        unfold processScope
        exact foldl_preserves_iff
          (fun s : List String × List String => name ∈ s.1)
          (processBinding obj obj_name module_name
            (Registry.get reg module_name) (local_scope_exclusions frame.code))
          (fun a2 b =>
            (processBinding_excluded_mem_iff obj obj_name module_name
              (Registry.get reg module_name) (local_scope_exclusions frame.code)
              name hname a2 b).1)
          scope a)
      [frame.f_globals, frame.f_locals] st
  · exact foldl_preserves_iff
      (fun s : List String × List String => name ∈ s.2)
      (processScope obj obj_name module_name
        (Registry.get reg module_name) (local_scope_exclusions frame.code))
      (fun a scope => by
        unfold processScope
        exact foldl_preserves_iff
          (fun s : List String × List String => name ∈ s.2)
          (processBinding obj obj_name module_name
            (Registry.get reg module_name) (local_scope_exclusions frame.code))
          (fun a2 b =>
            (processBinding_excluded_mem_iff obj obj_name module_name
              (Registry.get reg module_name) (local_scope_exclusions frame.code)
              name hname a2 b).2)
          scope a)
      [frame.f_globals, frame.f_locals] st

/-- C5 counterexample: `kw` is a formal parameter of the frame (keyword-only:
`co_argcount = 0`, `co_kwonlyargcount = 1`), is bound to the target value in
the frame locals, and is nevertheless reported as an object alias — only the
positional parameters `co_varnames[:co_argcount]` are excluded. -/
theorem kwonly_param_reported_counterexample :
    ("kw") ∈ formal_parameters frame0.code ∧
    ("kw") ∈ (get_import_details obj0 [frame0] reg0).objectAliases := by
  decide

/-- C5 witness: the amended statement at a frame with one positional
parameter `p` bound to the target value: `p` is not added. -/
theorem processFrame_excluded_witness :
    ((("p") ∈ (processFrame obj0 ("target") ("m") reg0
        (([], []) : List String × List String) frame1).1 ↔
      ("p") ∈ ([] : List String)) ∧
     (("p") ∈ (processFrame obj0 ("target") ("m") reg0
        (([], []) : List String × List String) frame1).2 ↔
      ("p") ∈ ([] : List String))) :=
  processFrame_excluded_names_never_added obj0 ("target") ("m") reg0 frame1
    (([], []) : List String × List String) ("p") (by decide)

/-- C6: each examined binding contributes to at most one alias collection,
and a binding whose value is a module identity-equal to the module registered
under the module name is never added to the object aliases (the object-alias
`elif` runs only when the module test fails), even when that module is the
resolved value itself. -/
theorem processBinding_exclusive (obj : PyObj) (obj_name module_name : String)
    (mo : Option PyObj) (excl : List String)
    (st : List String × List String) (a : String) (v : PyObj) :
    (((processBinding obj obj_name module_name mo excl st (a, v)).1 = st.1) ∨
     ((processBinding obj obj_name module_name mo excl st (a, v)).2 = st.2)) ∧
    (∀ m, mo = some m → v.isModule = true → v.id = m.id →
      (processBinding obj obj_name module_name mo excl st (a, v)).1 = st.1) := by
  unfold processBinding
  dsimp only
  split_ifs with hA hB hC
  · exact ⟨Or.inl rfl, fun m _ _ _ => rfl⟩
  · exact ⟨Or.inl rfl, fun m _ _ _ => rfl⟩
  · refine ⟨Or.inr rfl, ?_⟩
    intro m hm hmod hid
    exact absurd ⟨hmod, by rw [hm]; simp [hid]⟩ hA
  · exact ⟨Or.inl rfl, fun m _ _ _ => rfl⟩

/-- C6 witness: a binding `np ↦ mod0` of the loaded module examined while
resolving `obj0` contributes nothing to the object aliases. -/
theorem processBinding_exclusive_witness :
    (processBinding obj0 ("target") ("m") (some mod0) []
      (([], []) : List String × List String) (("np"), mod0)).1 = [] :=
  (processBinding_exclusive obj0 ("target") ("m") (some mod0) []
    (([], []) : List String × List String) ("np") mod0).2 mod0 rfl rfl rfl

theorem try_clear_events_eq (s : MonitoringState) (id : Nat) :
    try_clear_events s id = Except.ok (clear_one s id) := by
  by_cases h : s.toolIdInUse id <;>
    simp [try_clear_events, set_events, clear_one, h]

theorem reset_monitoring_eq (st : MonitoringState) :
    reset_monitoring st = Except.ok (reset_result st) := by
  simp only [reset_monitoring, RESERVED_RANGE, List.foldlM, try_clear_events_eq]
  rfl

theorem clear_one_proj (s : MonitoringState) (id : Nat) :
    (clear_one s id).toolId = s.toolId ∧
    (clear_one s id).toolIdInUse = s.toolIdInUse ∧
    (clear_one s id).callbacks = s.callbacks ∧
    (clear_one s id).sigalrmHandler = s.sigalrmHandler := by
  unfold clear_one
  split <;> exact ⟨rfl, rfl, rfl, rfl⟩

theorem clear_one_events (s : MonitoringState) (id j : Nat) :
    (clear_one s id).events j =
      if j = id ∧ s.toolIdInUse id = true then NO_EVENTS else s.events j := by
  unfold clear_one
  by_cases h : s.toolIdInUse id
  · by_cases hj : j = id <;> simp [h, hj]
  · simp [h]

theorem clear_callbacks_state_proj (st : MonitoringState) :
    (clear_callbacks_state st).toolId = st.toolId ∧
    (clear_callbacks_state st).toolIdInUse = st.toolIdInUse ∧
    (clear_callbacks_state st).events = st.events := by
  exact ⟨rfl, rfl, rfl⟩

theorem clear_callbacks_state_callbacks (st : MonitoringState) (e : Nat)
    (he : e ∈ EVENTS_SET) :
    (clear_callbacks_state st).callbacks st.toolId e = none := by
  simp only [EVENTS_SET, PY_START, PY_RETURN, PY_YIELD, CALL, List.mem_cons,
    List.not_mem_nil, or_false] at he
  rcases he with rfl | rfl | rfl | rfl <;>
    simp [clear_callbacks_state, EVENTS_SET, register_callback,
      PY_START, PY_RETURN, PY_YIELD, CALL]

theorem reset_result_spec (st : MonitoringState) :
    (reset_result st).toolId = st.toolId ∧
    (reset_result st).toolIdInUse = st.toolIdInUse ∧
    (∀ e, e ∈ EVENTS_SET → (reset_result st).callbacks st.toolId e = none) ∧
    (∀ i, i ∈ RESERVED_RANGE →
      (reset_result st).events i =
        if st.toolIdInUse i = true then NO_EVENTS else st.events i) ∧
    (∀ i, i ∉ RESERVED_RANGE → (reset_result st).events i = st.events i) ∧
    (reset_result st).sigalrmHandler = SigHandler.SIG_IGN ∧
    (reset_result st).itimerSeconds = 0 ∧
    (reset_result st).itimerInterval = 0 := by
  have h1 := clear_callbacks_state_proj st
  have h34 := clear_one_proj (clear_callbacks_state st) 3
  have h4 := clear_one_proj (clear_one (clear_callbacks_state st) 3) 4
  refine ⟨?_, ?_, ?_, ?_, ?_, rfl, rfl, rfl⟩
  · show (clear_one (clear_one (clear_callbacks_state st) 3) 4).toolId = st.toolId
    rw [h4.1, h34.1, h1.1]
  · show (clear_one (clear_one (clear_callbacks_state st) 3) 4).toolIdInUse =
      st.toolIdInUse
    rw [h4.2.1, h34.2.1, h1.2.1]
  · intro e he
    show (clear_one (clear_one (clear_callbacks_state st) 3) 4).callbacks
      st.toolId e = none
    rw [h4.2.2.1, h34.2.2.1]
    exact clear_callbacks_state_callbacks st e he
  · intro i hi
    show (clear_one (clear_one (clear_callbacks_state st) 3) 4).events i =
      if st.toolIdInUse i = true then NO_EVENTS else st.events i
    rw [clear_one_events, clear_one_events, h34.2.1, h1.2.1, h1.2.2]
    simp only [RESERVED_RANGE, List.mem_cons, List.not_mem_nil, or_false] at hi
    rcases hi with rfl | rfl
    · by_cases h : st.toolIdInUse 3 = true <;> simp [h, NO_EVENTS]
    · by_cases h : st.toolIdInUse 4 = true <;> simp [h, NO_EVENTS]
  · intro i hi
    show (clear_one (clear_one (clear_callbacks_state st) 3) 4).events i =
      st.events i
    rw [clear_one_events, clear_one_events, h34.2.1, h1.2.1, h1.2.2]
    simp only [RESERVED_RANGE, List.mem_cons, List.not_mem_nil, or_false,
      not_or] at hi
    simp [hi.1, hi.2]

/-- C3 counterexample: for a session that acquired identifier 3 (with all
four events enabled), `reset_monitoring` clears the event set of slot 3 —
one of the two slots it attempts, `RESERVED_RANGE = range(3, 5)`, is the
session's own identifier, so the attempted slots are not distinct from it. -/
theorem reset_clears_own_slot_counterexample :
    stOwn3.toolId = 3 ∧
    (3 : Nat) ∈ RESERVED_RANGE ∧
    stOwn3.events 3 = PY_START ||| PY_RETURN ||| PY_YIELD ||| CALL ∧
    eventsAfterReset stOwn3 3 = some NO_EVENTS := by
  decide

/-- C3 (amended): every call to `reset_monitoring` unregisters this session's
four callbacks and attempts to clear the event sets of exactly the two fixed
adjacent slots 3 and 4 — whether or not they coincide with this session's own
identifier — and the cleanup never propagates an error: a slot not in use
(whose clearing raises `ValueError`) is silently skipped, leaving its event
set unchanged. -/
theorem reset_monitoring_reserved_slots (st : MonitoringState) :
    RESERVED_RANGE = [3, 4] ∧
    ∃ st2, reset_monitoring st = Except.ok st2 ∧
      (∀ e, e ∈ EVENTS_SET → st2.callbacks st.toolId e = none) ∧
      (∀ i, i ∈ RESERVED_RANGE →
        st2.events i =
          if st.toolIdInUse i = true then NO_EVENTS else st.events i) ∧
      (∀ i, i ∉ RESERVED_RANGE → st2.events i = st.events i) := by
  obtain ⟨-, -, hcb, hin, hout, -, -, -⟩ := reset_result_spec st
  exact ⟨rfl, reset_result st, reset_monitoring_eq st, hcb, hin, hout⟩

/-- C10: `reset_monitoring` is idempotent in the claimed sense — two
consecutive invocations both return without error, and after each one the
session's four event callbacks are unregistered, the `SIGALRM` handler is the
ignore disposition and the interval timer is fully zeroed (delay and repeat
interval). -/
theorem reset_monitoring_idempotent (st : MonitoringState) :
    ∃ st1 st2,
      reset_monitoring st = Except.ok st1 ∧
      reset_monitoring st1 = Except.ok st2 ∧
      (∀ e, e ∈ EVENTS_SET → st1.callbacks st1.toolId e = none) ∧
      st1.sigalrmHandler = SigHandler.SIG_IGN ∧
      st1.itimerSeconds = 0 ∧
      st1.itimerInterval = 0 ∧
      (∀ e, e ∈ EVENTS_SET → st2.callbacks st2.toolId e = none) ∧
      st2.sigalrmHandler = SigHandler.SIG_IGN ∧
      st2.itimerSeconds = 0 ∧
      st2.itimerInterval = 0 := by
  obtain ⟨hid1, -, hcb1, -, -, hsig1, hsec1, hint1⟩ := reset_result_spec st
  obtain ⟨hid2, -, hcb2, -, -, hsig2, hsec2, hint2⟩ :=
    reset_result_spec (reset_result st)
  refine ⟨reset_result st, reset_result (reset_result st),
    reset_monitoring_eq st, reset_monitoring_eq (reset_result st),
    ?_, hsig1, hsec1, hint1, ?_, hsig2, hsec2, hint2⟩
  · intro e he
    rw [hid1]
    exact hcb1 e he
  · intro e he
    rw [hid2]
    exact hcb2 e he

/-- C8: `register_monitoring_callbacks` enables for the current session
identity exactly the union of the four event kinds — querying the enabled
event set immediately after registration returns precisely
`PY_START ||| PY_RETURN ||| PY_YIELD ||| CALL`. -/
theorem register_monitoring_enables_exactly_four
    (enter_function call_handler exit_function yield_function : Nat)
    (b : Bool) (st : MonitoringState)
    (h : st.toolIdInUse st.toolId = true) :
    ∃ st5, register_monitoring_callbacks enter_function call_handler
        exit_function yield_function b st = Except.ok st5 ∧
      get_events st5 st.toolId =
        Except.ok (PY_START ||| PY_RETURN ||| PY_YIELD ||| CALL) := by
  simp only [register_monitoring_callbacks, EVENTS_SET, List.foldl,
    set_events, h, if_true, register_callback]
  refine ⟨_, rfl, ?_⟩
  simp [get_events, h, PY_START, PY_RETURN, PY_YIELD, CALL]

/-- C8 witness: registering on a state whose session identity 5 is in use
yields exactly the four-event union as the enabled set. -/
theorem register_monitoring_witness :
    ∃ st5, register_monitoring_callbacks 10 11 12 13 true stInUse =
        Except.ok st5 ∧
      get_events st5 stInUse.toolId =
        Except.ok (PY_START ||| PY_RETURN ||| PY_YIELD ||| CALL) :=
  register_monitoring_enables_exactly_four 10 11 12 13 true stInUse (by decide)

theorem except_bind_ok {α β : Type} (a : α) (f : α → Except Unit β) :
    (Except.ok a >>= f) = f a := rfl

theorem except_bind_err {α β : Type} (e : Unit) (f : α → Except Unit β) :
    ((Except.error e : Except Unit α) >>= f) = Except.error e := rfl

theorem except_map_err {α β : Type} (e : Unit) (f : α → β) :
    (f <$> (Except.error e : Except Unit α)) = Except.error e := rfl

theorem except_map_ok {α β : Type} (a : α) (f : α → β) :
    (f <$> (Except.ok a : Except Unit α)) = Except.ok (f a) := rfl

theorem mk_import_from_ok (mn obn al : String) (m : DName)
    (hm : create_dotted_name mn = Except.ok m)
    (h1 : isValidIdentifier obn = true) (h2 : isValidIdentifier al = true) :
    mk_import_from mn obn (some al) =
      Except.ok (CNode.importFrom m obn (some al)) := by
  simp [mk_import_from, hm, mkName, h1, h2, except_bind_ok]

theorem mk_import_from_err (mn obn al : String)
    (h2 : isValidIdentifier al = false) :
    ∃ e, mk_import_from mn obn (some al) = Except.error e := by
  rcases hc : create_dotted_name mn with e | m
  · exact ⟨e, by simp [mk_import_from, hc, except_bind_err]⟩
  · by_cases h1 : isValidIdentifier obn = true
    · exact ⟨(), by
        simp [mk_import_from, hc, mkName, h1, h2, except_bind_ok,
          except_map_err]⟩
    · simp only [Bool.not_eq_true] at h1
      exact ⟨(), by
        simp [mk_import_from, hc, mkName, h1, except_bind_ok, except_bind_err,
          except_map_err]⟩

theorem objAliasStep_mono (mn obn : String) (a : List CNode × List String)
    (b : String) :
    (∀ x, x ∈ a.1 → x ∈ (objAliasStep mn obn a b).1) ∧
    (∀ w, w ∈ a.2 → w ∈ (objAliasStep mn obn a b).2) := by
  rcases h : mk_import_from mn obn (some b) with e | nd <;>
    constructor <;> intro y hy <;> simp [objAliasStep, h, hy]

theorem objAlias_fold_facts (mn obn : String) (m : DName)
    (hm : create_dotted_name mn = Except.ok m) (l : List String) :
    ∀ (acc : List CNode × List String) (al : String), al ∈ l →
      ((isValidIdentifier al = false →
        objAliasWarning obn al ∈ (l.foldl (objAliasStep mn obn) acc).2) ∧
       (isValidIdentifier obn = true → isValidIdentifier al = true →
        CNode.importFrom m obn (some al) ∈ (l.foldl (objAliasStep mn obn) acc).1)) := by
  induction l with
  | nil =>
    intro acc al h
    exact absurd h (List.not_mem_nil al)
  | cons b t ih =>
    intro acc al hal
    rw [List.foldl_cons]
    rcases List.mem_cons.mp hal with rfl | hmem
    · constructor
      · intro hbad
        obtain ⟨e, he⟩ := mk_import_from_err mn obn al hbad
        refine foldl_preserves
          (fun a : List CNode × List String => objAliasWarning obn al ∈ a.2)
          (objAliasStep mn obn)
          (fun a b2 hmem2 => (objAliasStep_mono mn obn a b2).2 _ hmem2)
          t (objAliasStep mn obn acc al) ?_
        simp [objAliasStep, he]
      · intro h1 h2
        have hok := mk_import_from_ok mn obn al m hm h1 h2
        refine foldl_preserves
          (fun a : List CNode × List String =>
            CNode.importFrom m obn (some al) ∈ a.1)
          (objAliasStep mn obn)
          (fun a b2 hmem2 => (objAliasStep_mono mn obn a b2).1 _ hmem2)
          t (objAliasStep mn obn acc al) ?_
        simp [objAliasStep, hok]
    · exact ih (objAliasStep mn obn acc b) al hmem

theorem objAlias_fold_mono (mn obn : String) (l : List String)
    (acc : List CNode × List String) :
    (∀ x, x ∈ acc.1 → x ∈ (l.foldl (objAliasStep mn obn) acc).1) ∧
    (∀ w, w ∈ acc.2 → w ∈ (l.foldl (objAliasStep mn obn) acc).2) := by
  constructor
  · intro x hx
    exact foldl_preserves
      (fun a : List CNode × List String => x ∈ a.1) (objAliasStep mn obn)
      (fun a b hb => (objAliasStep_mono mn obn a b).1 _ hb) l acc hx
  · intro w hw
    exact foldl_preserves
      (fun a : List CNode × List String => w ∈ a.2) (objAliasStep mn obn)
      (fun a b hb => (objAliasStep_mono mn obn a b).2 _ hb) l acc hw

theorem moduleAlias_foldlM_ok (mn : String) (m : DName)
    (hm : create_dotted_name mn = Except.ok m) :
    ∀ (l : List String), (∀ al, al ∈ l → isValidIdentifier al = true) →
    ∀ (nodes : List CNode),
      ∃ r, List.foldlM (moduleAliasStep mn) nodes l = Except.ok r ∧
        ∀ x, x ∈ nodes → x ∈ r := by
  intro l
  induction l with
  | nil =>
    intro _ nodes
    exact ⟨nodes, rfl, fun x hx => hx⟩
  | cons a t ih =>
    intro hval nodes
    have ha : isValidIdentifier a = true := hval a (List.mem_cons_self a t)
    have hstep : moduleAliasStep mn nodes a =
        Except.ok (nodes ++ [CNode.imp m (some a), CNode.emptyLine]) := by
      simp [moduleAliasStep, hm, mkName, ha, except_bind_ok]
    obtain ⟨r, hr, hmono⟩ :=
      ih (fun al hal => hval al (List.mem_cons_of_mem a hal))
        (nodes ++ [CNode.imp m (some a), CNode.emptyLine])
    refine ⟨r, ?_, fun x hx => hmono x (List.mem_append_left _ hx)⟩
    rw [List.foldlM_cons, hstep, except_bind_ok]
    exact hr

theorem objImportStep_warn (mn obn : String)
    (hbad : isValidIdentifier obn = false) :
    (objImportStep mn obn).2 = [objImportWarning mn obn] := by
  rcases hc : create_dotted_name mn with e | m
  · simp [objImportStep, mk_import_from, hc, except_bind_err]
  · simp [objImportStep, mk_import_from, hc, mkName, hbad, except_bind_ok,
      except_bind_err]

/-- C1 (amended): with a structurally valid module name and valid module
aliases, `generate_import_nodes` never raises; a malformed object name or
object alias only makes the corresponding guarded statement be skipped with
its warning recorded, while nodes for every other valid entry (including the
plain module import) are still returned.  (The plain module import and the
module-alias imports are outside any `try`, so a validation failure there —
see the counterexample — propagates.) -/
theorem generate_import_nodes_resilient (d : ImportDetails) (m : DName)
    (hm : create_dotted_name d.moduleName = Except.ok m)
    (hma : ∀ al, al ∈ d.moduleAliases → isValidIdentifier al = true) :
    ∃ nodes warns, generate_import_nodes d = Except.ok (nodes, warns) ∧
      (isValidIdentifier d.objectName = false →
        objImportWarning d.moduleName d.objectName ∈ warns) ∧
      (∀ al, al ∈ d.objectAliases → isValidIdentifier al = false →
        objAliasWarning d.objectName al ∈ warns) ∧
      (∀ al, al ∈ d.objectAliases → isValidIdentifier d.objectName = true →
        isValidIdentifier al = true →
        CNode.importFrom m d.objectName (some al) ∈ nodes) ∧
      CNode.imp m none ∈ nodes := by
  obtain ⟨r, hr, hmono⟩ :=
    moduleAlias_foldlM_ok d.moduleName m hm d.moduleAliases hma
      ((d.objectAliases.foldl (objAliasStep d.moduleName d.objectName)
          (objImportStep d.moduleName d.objectName)).1 ++
        [CNode.imp m none, CNode.emptyLine])
  refine ⟨r,
    (d.objectAliases.foldl (objAliasStep d.moduleName d.objectName)
      (objImportStep d.moduleName d.objectName)).2, ?_, ?_, ?_, ?_, ?_⟩
  · simp only [generate_import_nodes, hm, except_bind_ok]
    rw [hr, except_bind_ok]
    rfl
  · intro hbad
    refine (objAlias_fold_mono d.moduleName d.objectName d.objectAliases
      (objImportStep d.moduleName d.objectName)).2 _ ?_
    rw [objImportStep_warn d.moduleName d.objectName hbad]
    exact List.mem_singleton.mpr rfl
  · intro al hal hbad
    exact ((objAlias_fold_facts d.moduleName d.objectName m hm d.objectAliases)
      (objImportStep d.moduleName d.objectName) al hal).1 hbad
  · intro al hal h1 h2
    refine hmono _ (List.mem_append_left _ ?_)
    exact ((objAlias_fold_facts d.moduleName d.objectName m hm d.objectAliases)
      (objImportStep d.moduleName d.objectName) al hal).2 h1 h2
  · exact hmono _ (List.mem_append_right _ (List.mem_cons_self _ _))

/-- C1 witness: the amended statement at details whose object name is
malformed but whose module name and module alias are valid: generation
succeeds. -/
theorem generate_import_nodes_resilient_witness :
    ∃ nodes warns, generate_import_nodes mixedDetails = Except.ok (nodes, warns) ∧
      (isValidIdentifier mixedDetails.objectName = false →
        objImportWarning mixedDetails.moduleName mixedDetails.objectName ∈ warns) ∧
      (∀ al, al ∈ mixedDetails.objectAliases → isValidIdentifier al = false →
        objAliasWarning mixedDetails.objectName al ∈ warns) ∧
      (∀ al, al ∈ mixedDetails.objectAliases →
        isValidIdentifier mixedDetails.objectName = true →
        isValidIdentifier al = true →
        CNode.importFrom (DName.name ("pkg")) mixedDetails.objectName
          (some al) ∈ nodes) ∧
      CNode.imp (DName.name ("pkg")) none ∈ nodes :=
  generate_import_nodes_resilient mixedDetails (DName.name ("pkg"))
    (by rfl) (by decide)
